import Mathlib

/-!
Verification development for the libsockcanpp CAN driver library.

The definitions below are a shallow embedding of the C++ sources:
CanId.hpp, CanMessage.hpp, CanFdMessage.hpp, CanXLMessage.hpp,
CanDriver.hpp / CanDriver.cpp and the can_errors headers.
Machine integers are modelled as Nat (unsigned) or Int (signed) with
explicit reductions modulo powers of two where the C++ code truncates
or converts.  Fallible operations (C++ exceptions) are modelled with
Except.  Kernel syscall outcomes (read, write, close, ioctl, select)
are passed in as explicit parameters.
-/

/-! Kernel constants from linux/can.h and linux/can/error.h. -/

def CAN_EFF_FLAG : Nat := 0x80000000

def CAN_RTR_FLAG : Nat := 0x40000000

def CAN_ERR_FLAG : Nat := 0x20000000

def CAN_SFF_MASK : Nat := 0x000007FF

def CAN_EFF_MASK : Nat := 0x1FFFFFFF

def CAN_ERR_MASK : Nat := 0x1FFFFFFF

def CAN_MAX_DLEN : Nat := 8

def CANFD_MAX_DLEN : Nat := 64

def CANXL_MAX_DLEN : Nat := 2048

def CAN_ERR_TX_TIMEOUT : Nat := 0x00000001

def CAN_ERR_LOSTARB : Nat := 0x00000002

def CAN_ERR_CRTL : Nat := 0x00000004

def CAN_ERR_PROT : Nat := 0x00000008

def CAN_ERR_TRX : Nat := 0x00000010

def CAN_ERR_ACK : Nat := 0x00000020

def CAN_ERR_BUSOFF : Nat := 0x00000040

def CAN_ERR_BUSERROR : Nat := 0x00000080

def CAN_ERR_RESTARTED : Nat := 0x00000100

def CAN_ERR_CNT : Nat := 0x00000200

/-! The CanId value type (CanId.hpp).  The field m_identifier is a
uint32_t; constructions from wider values truncate modulo 2^32. -/

structure CanId where
  m_identifier : Nat := 0
deriving DecidableEq, Repr

/-- Constructor CanId(canid_t id); the cast into the 32-bit canid_t
truncates the value modulo 2^32. -/
def CanId.ofNat (v : Nat) : CanId := ⟨v % 4294967296⟩

/-- Static CanId::isValidIdentifier: static_cast of the argument to
canid_t, then comparison with CAN_EFF_MASK. -/
def CanId.isValidIdentifier (value : Nat) : Bool :=
  decide (value % 4294967296 ≤ CAN_EFF_MASK)

/-- Static CanId::isErrorFrame: bit test against CAN_ERR_FLAG. -/
def CanId.isErrorFrame (value : Nat) : Bool :=
  decide (value % 4294967296 &&& CAN_ERR_FLAG ≠ 0)

/-- Static CanId::isRemoteTransmissionRequest: bit test against CAN_RTR_FLAG. -/
def CanId.isRemoteTransmissionRequest (value : Nat) : Bool :=
  decide (value % 4294967296 &&& CAN_RTR_FLAG ≠ 0)

/-- Static CanId::isExtendedFrame: bit test against CAN_EFF_FLAG. -/
def CanId.isExtendedFrame (value : Nat) : Bool :=
  decide (value % 4294967296 &&& CAN_EFF_FLAG ≠ 0)

def CanId.hasErrorFrameFlag (id : CanId) : Bool :=
  CanId.isErrorFrame id.m_identifier

def CanId.hasRtrFrameFlag (id : CanId) : Bool :=
  CanId.isRemoteTransmissionRequest id.m_identifier

def CanId.isStandardFrameId (id : CanId) : Bool :=
  !(CanId.isExtendedFrame id.m_identifier)

def CanId.isExtendedFrameId (id : CanId) : Bool :=
  CanId.isExtendedFrame id.m_identifier

/-! The ten error-subsystem predicates of CanId (CanId.hpp lines 303-312):
each conjoins hasErrorFrameFlag with a single-bit mask test. -/

def CanId.hasBusError (id : CanId) : Bool :=
  id.hasErrorFrameFlag && decide (id.m_identifier &&& CAN_ERR_BUSERROR ≠ 0)

def CanId.hasBusOffError (id : CanId) : Bool :=
  id.hasErrorFrameFlag && decide (id.m_identifier &&& CAN_ERR_BUSOFF ≠ 0)

def CanId.hasControllerProblem (id : CanId) : Bool :=
  id.hasErrorFrameFlag && decide (id.m_identifier &&& CAN_ERR_CRTL ≠ 0)

def CanId.hasControllerRestarted (id : CanId) : Bool :=
  id.hasErrorFrameFlag && decide (id.m_identifier &&& CAN_ERR_RESTARTED ≠ 0)

def CanId.hasErrorCounter (id : CanId) : Bool :=
  id.hasErrorFrameFlag && decide (id.m_identifier &&& CAN_ERR_CNT ≠ 0)

def CanId.hasLostArbitration (id : CanId) : Bool :=
  id.hasErrorFrameFlag && decide (id.m_identifier &&& CAN_ERR_LOSTARB ≠ 0)

def CanId.hasProtocolViolation (id : CanId) : Bool :=
  id.hasErrorFrameFlag && decide (id.m_identifier &&& CAN_ERR_PROT ≠ 0)

def CanId.hasTransceiverStatus (id : CanId) : Bool :=
  id.hasErrorFrameFlag && decide (id.m_identifier &&& CAN_ERR_TRX ≠ 0)

def CanId.missingAckOnTransmit (id : CanId) : Bool :=
  id.hasErrorFrameFlag && decide (id.m_identifier &&& CAN_ERR_ACK ≠ 0)

def CanId.isTxTimeout (id : CanId) : Bool :=
  id.hasErrorFrameFlag && decide (id.m_identifier &&& CAN_ERR_TX_TIMEOUT ≠ 0)

/-! Conversion operators of CanId (CanId.hpp lines 92 and 100-104). -/

/-- Two's-complement reading of a 16-bit pattern, used to model the
int16_t conversions in the source. -/
def toSigned16 (x : Nat) : Int :=
  if x < 32768 then (x : Int) else (x : Int) - 65536

/-- Conversion operator int16_t: the identifier is first cast to
int16_t (truncation to 16 bits, read signed), that value is promoted
and converted to unsigned int for the AND with CAN_ERR_MASK (reduction
modulo 2^32), and the result is truncated back to int16_t. -/
def CanId.toInt16 (id : CanId) : Int :=
  let s : Int := toSigned16 (id.m_identifier % 65536)
  let u : Nat := (s % (4294967296 : Int)).toNat
  toSigned16 ((u &&& CAN_ERR_MASK) % 65536)

/-- Conversion operator uint16_t: cast to uint16_t (truncation to 16
bits), AND with CAN_ERR_MASK, truncation of the result to uint16_t. -/
def CanId.toUInt16 (id : CanId) : Nat :=
  ((id.m_identifier % 65536) &&& CAN_ERR_MASK) % 65536

/-- Conversion operator int32_t: AND with CAN_ERR_MASK; the result is
at most CAN_ERR_MASK and therefore representable in int32_t unchanged. -/
def CanId.toInt32 (id : CanId) : Int :=
  ((id.m_identifier &&& CAN_ERR_MASK : Nat) : Int)

/-- Conversion operator canid_t: AND with CAN_ERR_MASK. -/
def CanId.toCanid (id : CanId) : Nat :=
  id.m_identifier &&& CAN_ERR_MASK

/-- Dereference operator: returns the raw identifier unchanged. -/
def CanId.deref (id : CanId) : Nat :=
  id.m_identifier

/-- Specification-side validity predicate for claim C1, following the
words of the spec: the address portion of the value, with the three
flag bits stripped, must fit within the 11-bit mask for a standard
frame and within the 29-bit mask for an extended frame. -/
def specIsValidIdentifier (value : Nat) : Bool :=
  let raw := value % 4294967296
  let address := raw &&& CAN_EFF_MASK
  if CanId.isExtendedFrame raw then decide (address ≤ CAN_EFF_MASK)
  else decide (address ≤ CAN_SFF_MASK)

/-! Helper lemmas for the bit arithmetic. -/

theorem toNat_decide_mod_two (x : Nat) : (decide (x % 2 = 1)).toNat = x % 2 := by
  rcases Nat.mod_two_eq_zero_or_one x with h | h <;> simp [h]

theorem and_top_bit (v : Nat) (i : Nat) :
    v &&& 2 ^ i = v / 2 ^ i % 2 * 2 ^ i := by
  have h := Nat.and_two_pow v i
  rw [Nat.testBit_to_div_mod, toNat_decide_mod_two] at h
  exact h

/-- The claim C1 fails on the code: the value 0x800 is a standard-frame
identifier whose address portion exceeds the 11-bit mask, so the spec
predicate rejects it, yet CanId::isValidIdentifier accepts it. -/
theorem canId_isValidIdentifier_spec_mismatch :
    CanId.isValidIdentifier 0x800 = true ∧ specIsValidIdentifier 0x800 = false := by
  constructor <;> decide

/-- C1 (amended): CanId::isValidIdentifier holds iff the raw 32-bit
value, flag bits included, is at most the 29-bit mask CAN_EFF_MASK;
equivalently, iff none of the three flag bits (extended-format, RTR,
error) is set.  The 11-bit standard mask is never applied. -/
theorem canId_isValidIdentifier_iff_no_flags (v : Nat) (hv : v < 4294967296) :
    CanId.isValidIdentifier v = true ↔
      (CanId.isExtendedFrame v = false ∧
       CanId.isRemoteTransmissionRequest v = false ∧
       CanId.isErrorFrame v = false) := by
  have e31 : v &&& 2147483648 = v / 2147483648 % 2 * 2147483648 := by
    have h := and_top_bit v 31
    norm_num at h
    exact h
  have e30 : v &&& 1073741824 = v / 1073741824 % 2 * 1073741824 := by
    have h := and_top_bit v 30
    norm_num at h
    exact h
  have e29 : v &&& 536870912 = v / 536870912 % 2 * 536870912 := by
    have h := and_top_bit v 29
    norm_num at h
    exact h
  simp only [CanId.isValidIdentifier, CanId.isExtendedFrame,
    CanId.isRemoteTransmissionRequest, CanId.isErrorFrame,
    CAN_EFF_MASK, CAN_EFF_FLAG, CAN_RTR_FLAG, CAN_ERR_FLAG,
    Nat.mod_eq_of_lt hv, decide_eq_true_eq, decide_eq_false_iff_not,
    not_not]
  rw [show (0x80000000 : Nat) = 2147483648 from rfl,
      show (0x40000000 : Nat) = 1073741824 from rfl,
      show (0x20000000 : Nat) = 536870912 from rfl, e31, e30, e29]
  omega

/-- Witness for C1 (amended) at the concrete identifier 0x123. -/
theorem canId_isValidIdentifier_iff_no_flags_witness :
    CanId.isValidIdentifier 0x123 = true ↔
      (CanId.isExtendedFrame 0x123 = false ∧
       CanId.isRemoteTransmissionRequest 0x123 = false ∧
       CanId.isErrorFrame 0x123 = false) :=
  canId_isValidIdentifier_iff_no_flags 0x123 (by norm_num)

/-- C9: each of the ten error-subsystem predicates of CanId conjoins
the error-frame flag test with its mask test, so whenever
hasErrorFrameFlag is false all ten predicates return false. -/
theorem canId_error_predicates_need_error_flag (id : CanId)
    (h : id.hasErrorFrameFlag = false) :
    id.hasBusError = false ∧ id.hasBusOffError = false ∧
    id.hasControllerProblem = false ∧ id.hasControllerRestarted = false ∧
    id.hasErrorCounter = false ∧ id.hasLostArbitration = false ∧
    id.hasProtocolViolation = false ∧ id.hasTransceiverStatus = false ∧
    id.missingAckOnTransmit = false ∧ id.isTxTimeout = false := by
  simp [CanId.hasBusError, CanId.hasBusOffError, CanId.hasControllerProblem,
    CanId.hasControllerRestarted, CanId.hasErrorCounter,
    CanId.hasLostArbitration, CanId.hasProtocolViolation,
    CanId.hasTransceiverStatus, CanId.missingAckOnTransmit,
    CanId.isTxTimeout, h]

/-- Witness for C9 at the concrete identifier 0x7FF (all error-class
mask bits of interest absent because the error-frame flag is clear). -/
theorem canId_error_predicates_need_error_flag_witness :
    CanId.hasErrorFrameFlag ⟨0x3FF⟩ = false ∧
    (CanId.hasBusError ⟨0x3FF⟩ = false ∧ CanId.hasBusOffError ⟨0x3FF⟩ = false ∧
     CanId.hasControllerProblem ⟨0x3FF⟩ = false ∧
     CanId.hasControllerRestarted ⟨0x3FF⟩ = false ∧
     CanId.hasErrorCounter ⟨0x3FF⟩ = false ∧
     CanId.hasLostArbitration ⟨0x3FF⟩ = false ∧
     CanId.hasProtocolViolation ⟨0x3FF⟩ = false ∧
     CanId.hasTransceiverStatus ⟨0x3FF⟩ = false ∧
     CanId.missingAckOnTransmit ⟨0x3FF⟩ = false ∧
     CanId.isTxTimeout ⟨0x3FF⟩ = false) :=
  ⟨by decide, canId_error_predicates_need_error_flag ⟨0x3FF⟩ (by decide)⟩

/-! Error taxonomy constants from linux/can/error.h (controller,
protocol and transceiver byte codes; the enums in the can_errors
headers bind exactly these values). -/

def CAN_ERR_CRTL_UNSPEC : Nat := 0x00

def CAN_ERR_CRTL_RX_OVERFLOW : Nat := 0x01

def CAN_ERR_CRTL_TX_OVERFLOW : Nat := 0x02

def CAN_ERR_CRTL_RX_WARNING : Nat := 0x04

def CAN_ERR_CRTL_TX_WARNING : Nat := 0x08

def CAN_ERR_CRTL_RX_PASSIVE : Nat := 0x10

def CAN_ERR_CRTL_TX_PASSIVE : Nat := 0x20

def CAN_ERR_CRTL_ACTIVE : Nat := 0x40

def CAN_ERR_PROT_UNSPEC : Nat := 0x00

def CAN_ERR_PROT_BIT : Nat := 0x01

def CAN_ERR_PROT_FORM : Nat := 0x02

def CAN_ERR_PROT_STUFF : Nat := 0x04

def CAN_ERR_PROT_BIT0 : Nat := 0x08

def CAN_ERR_PROT_BIT1 : Nat := 0x10

def CAN_ERR_PROT_OVERLOAD : Nat := 0x20

def CAN_ERR_PROT_ACTIVE : Nat := 0x40

def CAN_ERR_PROT_TX : Nat := 0x80

def CAN_ERR_TRX_UNSPEC : Nat := 0x00

def CAN_ERR_TRX_CANH_NO_WIRE : Nat := 0x04

def CAN_ERR_TRX_CANH_SHORT_TO_BAT : Nat := 0x05

def CAN_ERR_TRX_CANH_SHORT_TO_VCC : Nat := 0x06

def CAN_ERR_TRX_CANH_SHORT_TO_GND : Nat := 0x07

def CAN_ERR_TRX_CANL_NO_WIRE : Nat := 0x40

def CAN_ERR_TRX_CANL_SHORT_TO_BAT : Nat := 0x50

def CAN_ERR_TRX_CANL_SHORT_TO_VCC : Nat := 0x60

def CAN_ERR_TRX_CANL_SHORT_TO_GND : Nat := 0x70

def CAN_ERR_TRX_CANL_SHORT_TO_CANH : Nat := 0x80

/-! The error taxonomies (can_errors headers).  Error codes are the
underlying uint8_t values; each fromErrorCode mirrors the switch of
the source, keeping the incoming code and attaching the message of the
matching case, with the default case attaching the generic message. -/

structure ControllerError where
  errorCode : Nat
  errorMessage : String
deriving DecidableEq, Repr

def ControllerError.fromErrorCode (code : Nat) : ControllerError :=
  if code = CAN_ERR_CRTL_UNSPEC then ⟨code, "Unspecified error"⟩
  else if code = CAN_ERR_CRTL_RX_OVERFLOW then ⟨code, "Receive overflow error"⟩
  else if code = CAN_ERR_CRTL_TX_OVERFLOW then ⟨code, "Transmit overflow error"⟩
  else if code = CAN_ERR_CRTL_RX_WARNING then ⟨code, "Receive warning error"⟩
  else if code = CAN_ERR_CRTL_TX_WARNING then ⟨code, "Transmit warning error"⟩
  else if code = CAN_ERR_CRTL_RX_PASSIVE then ⟨code, "Receive passive error"⟩
  else if code = CAN_ERR_CRTL_TX_PASSIVE then ⟨code, "Transmit passive error"⟩
  else if code = CAN_ERR_CRTL_ACTIVE then ⟨code, "Recovered to active state"⟩
  else ⟨code, "Unknown error"⟩

structure ProtocolError where
  errorCode : Nat
  errorLocation : Nat
  errorMessage : String
deriving DecidableEq, Repr

def ProtocolError.fromErrorCode (code location : Nat) : ProtocolError :=
  if code = CAN_ERR_PROT_UNSPEC then ⟨code, location, "Unspecified error occurred"⟩
  else if code = CAN_ERR_PROT_BIT then ⟨code, location, "Single bit error occurred"⟩
  else if code = CAN_ERR_PROT_FORM then ⟨code, location, "Frame format error occurred"⟩
  else if code = CAN_ERR_PROT_STUFF then ⟨code, location, "Bit stuffing error occurred"⟩
  else if code = CAN_ERR_PROT_BIT0 then ⟨code, location, "Dominant bit failure occurred"⟩
  else if code = CAN_ERR_PROT_BIT1 then ⟨code, location, "Recessive bit failure occurred"⟩
  else if code = CAN_ERR_PROT_OVERLOAD then ⟨code, location, "Overload error occurred"⟩
  else if code = CAN_ERR_PROT_ACTIVE then ⟨code, location, "Active error occurred"⟩
  else if code = CAN_ERR_PROT_TX then ⟨code, location, "Transmission error occurred"⟩
  else ⟨code, location, "Unknown error occurred"⟩

structure TransceiverError where
  errorCode : Nat
  errorMessage : String
deriving DecidableEq, Repr

def TransceiverError.fromErrorCode (code : Nat) : TransceiverError :=
  if code = CAN_ERR_TRX_UNSPEC then ⟨code, "Unspecified error."⟩
  else if code = CAN_ERR_TRX_CANH_NO_WIRE then ⟨code, "CANH no wire error."⟩
  else if code = CAN_ERR_TRX_CANH_SHORT_TO_BAT then ⟨code, "CANH short to battery error."⟩
  else if code = CAN_ERR_TRX_CANH_SHORT_TO_VCC then ⟨code, "CANH short to VCC error."⟩
  else if code = CAN_ERR_TRX_CANH_SHORT_TO_GND then ⟨code, "CANH short to ground error."⟩
  else if code = CAN_ERR_TRX_CANL_NO_WIRE then ⟨code, "CANL no wire error."⟩
  else if code = CAN_ERR_TRX_CANL_SHORT_TO_BAT then ⟨code, "CANL short to battery error."⟩
  else if code = CAN_ERR_TRX_CANL_SHORT_TO_VCC then ⟨code, "CANL short to VCC error."⟩
  else if code = CAN_ERR_TRX_CANL_SHORT_TO_GND then ⟨code, "CANL short to ground error."⟩
  else if code = CAN_ERR_TRX_CANL_SHORT_TO_CANH then ⟨code, "CANL short to CANH error."⟩
  else ⟨code, "Unknown error."⟩

/-- The byte codes the controller taxonomy recognises. -/
def controllerKnownCodes : List Nat := [0x00, 0x01, 0x02, 0x04, 0x08, 0x10, 0x20, 0x40]

/-- The byte codes the protocol taxonomy recognises. -/
def protocolKnownCodes : List Nat := [0x00, 0x01, 0x02, 0x04, 0x08, 0x10, 0x20, 0x40, 0x80]

/-- The byte codes the transceiver taxonomy recognises. -/
def transceiverKnownCodes : List Nat :=
  [0x00, 0x04, 0x05, 0x06, 0x07, 0x40, 0x50, 0x60, 0x70, 0x80]

theorem controllerError_code_id (b : Nat) :
    (ControllerError.fromErrorCode b).errorCode = b := by
  unfold ControllerError.fromErrorCode
  repeat' split
  all_goals rfl

theorem controllerError_unknown_msg (b : Nat) (h : b ∉ controllerKnownCodes) :
    (ControllerError.fromErrorCode b).errorMessage = "Unknown error" := by
  simp only [controllerKnownCodes, List.mem_cons, List.not_mem_nil] at h
  push_neg at h
  unfold ControllerError.fromErrorCode
  simp only [CAN_ERR_CRTL_UNSPEC, CAN_ERR_CRTL_RX_OVERFLOW,
    CAN_ERR_CRTL_TX_OVERFLOW, CAN_ERR_CRTL_RX_WARNING,
    CAN_ERR_CRTL_TX_WARNING, CAN_ERR_CRTL_RX_PASSIVE,
    CAN_ERR_CRTL_TX_PASSIVE, CAN_ERR_CRTL_ACTIVE]
  repeat' rw [if_neg (by omega)]

theorem protocolError_code_id (c l : Nat) :
    (ProtocolError.fromErrorCode c l).errorCode = c := by
  unfold ProtocolError.fromErrorCode
  repeat' split
  all_goals rfl

theorem protocolError_location_id (c l : Nat) :
    (ProtocolError.fromErrorCode c l).errorLocation = l := by
  unfold ProtocolError.fromErrorCode
  repeat' split
  all_goals rfl

theorem protocolError_unknown_msg (c l : Nat) (h : c ∉ protocolKnownCodes) :
    (ProtocolError.fromErrorCode c l).errorMessage = "Unknown error occurred" := by
  simp only [protocolKnownCodes, List.mem_cons, List.not_mem_nil] at h
  push_neg at h
  unfold ProtocolError.fromErrorCode
  simp only [CAN_ERR_PROT_UNSPEC, CAN_ERR_PROT_BIT, CAN_ERR_PROT_FORM,
    CAN_ERR_PROT_STUFF, CAN_ERR_PROT_BIT0, CAN_ERR_PROT_BIT1,
    CAN_ERR_PROT_OVERLOAD, CAN_ERR_PROT_ACTIVE, CAN_ERR_PROT_TX]
  repeat' rw [if_neg (by omega)]

theorem transceiverError_code_id (b : Nat) :
    (TransceiverError.fromErrorCode b).errorCode = b := by
  unfold TransceiverError.fromErrorCode
  repeat' split
  all_goals rfl

theorem transceiverError_unknown_msg (b : Nat) (h : b ∉ transceiverKnownCodes) :
    (TransceiverError.fromErrorCode b).errorMessage = "Unknown error." := by
  simp only [transceiverKnownCodes, List.mem_cons, List.not_mem_nil] at h
  push_neg at h
  unfold TransceiverError.fromErrorCode
  simp only [CAN_ERR_TRX_UNSPEC, CAN_ERR_TRX_CANH_NO_WIRE,
    CAN_ERR_TRX_CANH_SHORT_TO_BAT, CAN_ERR_TRX_CANH_SHORT_TO_VCC,
    CAN_ERR_TRX_CANH_SHORT_TO_GND, CAN_ERR_TRX_CANL_NO_WIRE,
    CAN_ERR_TRX_CANL_SHORT_TO_BAT, CAN_ERR_TRX_CANL_SHORT_TO_VCC,
    CAN_ERR_TRX_CANL_SHORT_TO_GND, CAN_ERR_TRX_CANL_SHORT_TO_CANH]
  repeat' rw [if_neg (by omega)]

/-- C8: the three decode functions are total over all 256 input bytes;
each keeps the incoming code (and, for the protocol taxonomy, passes
the location byte through unchanged), and for any byte outside the
known set it produces the unknown variant with the generic message. -/
theorem error_taxonomies_total (b c l : Nat)
    (hb : b < 256) (hc : c < 256) (hl : l < 256) :
    ((ControllerError.fromErrorCode b).errorCode = b ∧
      (b ∉ controllerKnownCodes →
        (ControllerError.fromErrorCode b).errorMessage = "Unknown error")) ∧
    ((ProtocolError.fromErrorCode c l).errorCode = c ∧
      (ProtocolError.fromErrorCode c l).errorLocation = l ∧
      (c ∉ protocolKnownCodes →
        (ProtocolError.fromErrorCode c l).errorMessage = "Unknown error occurred")) ∧
    ((TransceiverError.fromErrorCode b).errorCode = b ∧
      (b ∉ transceiverKnownCodes →
        (TransceiverError.fromErrorCode b).errorMessage = "Unknown error.")) :=
  ⟨⟨controllerError_code_id b, controllerError_unknown_msg b⟩,
   ⟨protocolError_code_id c l, protocolError_location_id c l,
    protocolError_unknown_msg c l⟩,
   ⟨transceiverError_code_id b, transceiverError_unknown_msg b⟩⟩

/-- Witness for C8 at the concrete unrecognised bytes 0xAB / 0x33 and
location byte 0x12. -/
theorem error_taxonomies_total_witness :
    ((ControllerError.fromErrorCode 0xAB).errorCode = 0xAB ∧
      (0xAB ∉ controllerKnownCodes →
        (ControllerError.fromErrorCode 0xAB).errorMessage = "Unknown error")) ∧
    ((ProtocolError.fromErrorCode 0x33 0x12).errorCode = 0x33 ∧
      (ProtocolError.fromErrorCode 0x33 0x12).errorLocation = 0x12 ∧
      (0x33 ∉ protocolKnownCodes →
        (ProtocolError.fromErrorCode 0x33 0x12).errorMessage = "Unknown error occurred")) ∧
    ((TransceiverError.fromErrorCode 0xAB).errorCode = 0xAB ∧
      (0xAB ∉ transceiverKnownCodes →
        (TransceiverError.fromErrorCode 0xAB).errorMessage = "Unknown error.")) :=
  error_taxonomies_total 0xAB 0x33 0x12 (by norm_num) (by norm_num) (by norm_num)

/-! Error kinds surfaced by the library (exception classes and the
std::system_error used by the message constructors). -/

inductive CanError where
  | invalidSocket
  | payloadTooBig
  | ioFailure
  | closeFailure
  | initFailure
  | fdInvalidLength
deriving DecidableEq, Repr

/-- Truth of an Except value being a payload-too-large failure. -/
def failsPayloadTooBig {α : Type} : Except CanError α → Bool
  | Except.error CanError.payloadTooBig => true
  | _ => false

/-- Truth of an Except value being a success. -/
def exceptIsOk {α : Type} : Except CanError α → Bool
  | Except.ok _ => true
  | _ => false

/-! The classic CAN frame (struct can_frame of linux/can.h): a 32-bit
identifier, a length byte and an 8-byte data array.  The data array is
modelled as a byte function over indices; construction paths fill
indices below the payload length and leave the rest at the zero the
struct initialiser provides.  The len field of the span constructor is
the same union member as can_dlc, so one field models both. -/

structure can_frame where
  can_id : Nat := 0
  can_dlc : Nat := 0
  data : Nat → Nat := fun _ => 0

/-! The classic CAN message (CanMessage.hpp).  The timestamp offset is
not modelled: no claim concerns it, and it does not feed any modelled
operation. -/

structure CanMessage where
  m_canIdentifier : CanId := {}
  m_rawFrame : can_frame := {}

/-- Constructor CanMessageT(const can_frame) - copies the identifier
and retains the raw frame. -/
def CanMessage.ofFrame (frame : can_frame) : CanMessage :=
  ⟨⟨frame.can_id⟩, frame⟩

/-- Constructor CanMessageT(const CanId, const string) - fails when the
payload exceeds CAN_MAX_DLEN, otherwise copies the payload bytes into
the zero-initialised frame, stores the flag-stripped identifier in the
frame (assignment through operator canid_t) and records the length. -/
def CanMessage.ofIdPayload (canId : CanId) (frameData : List Nat) :
    Except CanError CanMessage :=
  if frameData.length > CAN_MAX_DLEN then Except.error CanError.payloadTooBig
  else Except.ok
    { m_canIdentifier := canId,
      m_rawFrame :=
        { can_id := canId.toCanid,
          can_dlc := frameData.length,
          data := fun i => frameData.getD i 0 } }

/-- Constructor CanMessageT(const CanId, const span of bytes) - same
checks and stores as the string path; it writes the len union member,
which shares storage with can_dlc. -/
def CanMessage.ofIdPayloadSpan (canId : CanId) (frameData : List Nat) :
    Except CanError CanMessage :=
  if frameData.length > CAN_MAX_DLEN then Except.error CanError.payloadTooBig
  else Except.ok
    { m_canIdentifier := canId,
      m_rawFrame :=
        { can_id := canId.toCanid,
          can_dlc := frameData.length,
          data := fun i => frameData.getD i 0 } }

def CanMessage.getCanId (m : CanMessage) : CanId := m.m_canIdentifier

/-- getFrameData copies can_dlc bytes out of the frame data array. -/
def CanMessage.getFrameData (m : CanMessage) : List Nat :=
  (List.range m.m_rawFrame.can_dlc).map m.m_rawFrame.data

def CanMessage.getRawFrame (m : CanMessage) : can_frame := m.m_rawFrame

/-! Error-frame accessors of CanMessageT (CanMessage.hpp lines 168-185):
the subsystem predicates delegate to the identifier; the decode
accessors read fixed offsets of the raw frame payload. -/

def CanMessage.hasControllerProblem (m : CanMessage) : Bool :=
  m.m_canIdentifier.hasControllerProblem

def CanMessage.hasLostArbitration (m : CanMessage) : Bool :=
  m.m_canIdentifier.hasLostArbitration

def CanMessage.getControllerError (m : CanMessage) : ControllerError :=
  ControllerError.fromErrorCode (m.m_rawFrame.data 1)

def CanMessage.getProtocolError (m : CanMessage) : ProtocolError :=
  ProtocolError.fromErrorCode (m.m_rawFrame.data 2) (m.m_rawFrame.data 3)

def CanMessage.getTransceiverError (m : CanMessage) : TransceiverError :=
  TransceiverError.fromErrorCode (m.m_rawFrame.data 4)

def CanMessage.getTxErrorCounter (m : CanMessage) : Nat :=
  m.m_rawFrame.data 6

def CanMessage.getRxErrorCounter (m : CanMessage) : Nat :=
  m.m_rawFrame.data 7

def CanMessage.arbitrationLostInBit (m : CanMessage) : Nat :=
  m.m_rawFrame.data 0

/-! The CAN FD message (CanFdMessage.hpp): the identifier plus a byte
string.  Its constructors store the payload without any length check;
only setFrameData validates against CANFD_MAX_DLEN. -/

structure CanFdMessage where
  m_canIdentifier : CanId
  m_frameData : List Nat

/-- Static CanFdMessage::isMessageValid for payload strings. -/
def CanFdMessage.isMessageValid (frameData : List Nat) : Bool :=
  decide (frameData.length ≤ CANFD_MAX_DLEN)

/-- Constructor CanFdMessage(const CanId, const string) - stores the
identifier and payload directly; the body contains no length check and
cannot fail. -/
def CanFdMessage.ofIdPayload (canId : CanId) (frameData : List Nat) :
    Except CanError CanFdMessage :=
  Except.ok ⟨canId, frameData⟩

/-- CanFdMessage::setFrameData - rejects payloads that fail
isMessageValid with a CanException, otherwise replaces the stored
payload. -/
def CanFdMessage.setFrameData (m : CanFdMessage) (frameData : List Nat) :
    Except CanError CanFdMessage :=
  if ¬ CanFdMessage.isMessageValid frameData then
    Except.error CanError.fdInvalidLength
  else Except.ok { m with m_frameData := frameData }

/-! The CAN XL message (CanXLMessage.hpp).  The constructor from
priority, acceptance field and payload validates the payload length
against CANXL_MAX_DLEN; the local canxl_frame it then fills is never
assigned to the member, so the member keeps its default value and the
model only records the success or failure of construction. -/

structure CanXlMessage where
  _rawFrame : Unit := ()

def CanXlMessage.ofIdPayload (priorityField acceptanceField : CanId)
    (frameData : List Nat) : Except CanError CanXlMessage :=
  if frameData.length > CANXL_MAX_DLEN then Except.error CanError.payloadTooBig
  else Except.ok {}

/-- The claim C2 fails on the code: the CAN FD constructor from
identifier and payload accepts a payload of CANFD_MAX_DLEN + 1 = 65
bytes instead of failing with a payload-too-large condition. -/
theorem canFd_oversize_construction_succeeds :
    exceptIsOk (CanFdMessage.ofIdPayload ⟨0⟩ (List.replicate 65 0)) = true ∧
    65 = CANFD_MAX_DLEN + 1 := by
  exact ⟨rfl, rfl⟩

/-- C2 (amended): the classic construction paths (string and span) fail
with a payload-too-large condition exactly when the payload exceeds
CAN_MAX_DLEN = 8 bytes, and the CAN XL constructor exactly when the
payload exceeds CANXL_MAX_DLEN = 2048 bytes - so for those paths the
maximum length succeeds and maximum + 1 fails; the CAN FD constructor,
however, performs no length check and never fails, its validation
living only in setFrameData, which rejects exactly the payloads longer
than CANFD_MAX_DLEN = 64 bytes. -/
theorem message_construction_payload_bounds :
    (∀ (canId : CanId) (p : List Nat),
      failsPayloadTooBig (CanMessage.ofIdPayload canId p) =
        decide (CAN_MAX_DLEN < p.length)) ∧
    (∀ (canId : CanId) (p : List Nat),
      failsPayloadTooBig (CanMessage.ofIdPayloadSpan canId p) =
        decide (CAN_MAX_DLEN < p.length)) ∧
    (∀ (pf af : CanId) (p : List Nat),
      failsPayloadTooBig (CanXlMessage.ofIdPayload pf af p) =
        decide (CANXL_MAX_DLEN < p.length)) ∧
    (∀ (canId : CanId) (p : List Nat),
      failsPayloadTooBig (CanFdMessage.ofIdPayload canId p) = false) ∧
    (∀ (m : CanFdMessage) (p : List Nat),
      exceptIsOk (CanFdMessage.setFrameData m p) =
        decide (p.length ≤ CANFD_MAX_DLEN)) := by
  refine ⟨?_, ?_, ?_, ?_, ?_⟩
  · intro canId p
    unfold CanMessage.ofIdPayload
    split <;> simp_all [failsPayloadTooBig]
  · intro canId p
    unfold CanMessage.ofIdPayloadSpan
    split <;> simp_all [failsPayloadTooBig]
  · intro pf af p
    unfold CanXlMessage.ofIdPayload
    split <;> simp_all [failsPayloadTooBig]
  · intro canId p
    rfl
  · intro m p
    unfold CanFdMessage.setFrameData CanFdMessage.isMessageValid
    split <;> simp_all [exceptIsOk]

/-- C6: for any message built from an identifier and a payload of at
most eight bytes, the error accessors decode the fixed payload
offsets: byte 0 is the arbitration-lost bit position, byte 1 the
controller error code, bytes 2 and 3 the protocol error code and
location, byte 4 the transceiver error code, byte 6 the TX error
counter and byte 7 the RX error counter (absent bytes read as the zero
fill of the frame); in particular the payload ff 01 under CAN_ERR_CRTL
decodes to the receive-overflow controller error, and the payload 42
under CAN_ERR_LOSTARB gives arbitration lost in bit 42. -/
theorem canMessage_error_frame_accessors :
    (∀ (canId : CanId) (payload : List Nat),
      canId.hasErrorFrameFlag = true →
      payload.length ≤ 8 →
      ∃ m : CanMessage, CanMessage.ofIdPayload canId payload = Except.ok m ∧
        m.arbitrationLostInBit = payload.getD 0 0 ∧
        m.getControllerError = ControllerError.fromErrorCode (payload.getD 1 0) ∧
        m.getProtocolError =
          ProtocolError.fromErrorCode (payload.getD 2 0) (payload.getD 3 0) ∧
        m.getTransceiverError = TransceiverError.fromErrorCode (payload.getD 4 0) ∧
        m.getTxErrorCounter = payload.getD 6 0 ∧
        m.getRxErrorCounter = payload.getD 7 0 ∧
        m.hasControllerProblem = canId.hasControllerProblem) ∧
    (∃ m : CanMessage,
      CanMessage.ofIdPayload (CanId.ofNat (CAN_ERR_FLAG ||| CAN_ERR_CRTL))
        [0xff, 0x01] = Except.ok m ∧
      m.hasControllerProblem = true ∧
      (m.getControllerError).errorCode = CAN_ERR_CRTL_RX_OVERFLOW) ∧
    (∃ m : CanMessage,
      CanMessage.ofIdPayload (CanId.ofNat (CAN_ERR_FLAG ||| CAN_ERR_LOSTARB))
        [42] = Except.ok m ∧
      m.arbitrationLostInBit = 42) := by
  refine ⟨?_, ⟨_, rfl, ?_, ?_⟩, ⟨_, rfl, ?_⟩⟩
  · intro canId payload hflag hlen
    refine ⟨{ m_canIdentifier := canId,
              m_rawFrame :=
                { can_id := canId.toCanid,
                  can_dlc := payload.length,
                  data := fun i => payload.getD i 0 } },
            ?_, rfl, rfl, rfl, rfl, rfl, rfl, rfl⟩
    unfold CanMessage.ofIdPayload
    rw [if_neg (by simpa [CAN_MAX_DLEN] using Nat.not_lt.mpr hlen)]
  · decide
  · decide
  · decide

/-- Witness for C6 with the concrete error frame carrying the counter
bytes 11 and 22 at offsets 6 and 7. -/
theorem canMessage_error_frame_accessors_witness :
    CanId.hasErrorFrameFlag (CanId.ofNat 0x20000200) = true ∧
    ([5, 1, 2, 3, 4, 9, 11, 22] : List Nat).length ≤ 8 ∧
    ∃ m : CanMessage,
      CanMessage.ofIdPayload (CanId.ofNat 0x20000200)
        [5, 1, 2, 3, 4, 9, 11, 22] = Except.ok m ∧
      m.arbitrationLostInBit = ([5, 1, 2, 3, 4, 9, 11, 22] : List Nat).getD 0 0 ∧
      m.getControllerError =
        ControllerError.fromErrorCode
          (([5, 1, 2, 3, 4, 9, 11, 22] : List Nat).getD 1 0) ∧
      m.getProtocolError =
        ProtocolError.fromErrorCode
          (([5, 1, 2, 3, 4, 9, 11, 22] : List Nat).getD 2 0)
          (([5, 1, 2, 3, 4, 9, 11, 22] : List Nat).getD 3 0) ∧
      m.getTransceiverError =
        TransceiverError.fromErrorCode
          (([5, 1, 2, 3, 4, 9, 11, 22] : List Nat).getD 4 0) ∧
      m.getTxErrorCounter = ([5, 1, 2, 3, 4, 9, 11, 22] : List Nat).getD 6 0 ∧
      m.getRxErrorCounter = ([5, 1, 2, 3, 4, 9, 11, 22] : List Nat).getD 7 0 ∧
      m.hasControllerProblem = CanId.hasControllerProblem (CanId.ofNat 0x20000200) :=
  ⟨by decide, by decide,
   canMessage_error_frame_accessors.1 (CanId.ofNat 0x20000200)
     [5, 1, 2, 3, 4, 9, 11, 22] (by decide) (by decide)⟩

/-! The driver (CanDriver.hpp / CanDriver.cpp).  Only the state fields
the modelled operations touch are kept; locks are serialisation
devices with no data content and are omitted.  Syscall outcomes are
explicit parameters: select and write results as integers, the
FIONREAD ioctl as an optional byte count, close as a success flag, and
the read syscall as a trace of per-call outcomes. -/

def CAN_MAX_DATA_LENGTH : Nat := 8

/-- Size in bytes of struct can_frame on Linux: a 4-byte identifier,
one length byte, three padding bytes and eight data bytes. -/
def SIZEOF_CAN_FRAME : Nat := 16

structure CanDriver where
  m_canReadQueueSize : Bool := true
  m_collectTelemetry : Bool := false
  m_socketFd : Int := -1
  m_queueSize : Nat := 0
deriving DecidableEq, Repr

/-- Outcome of the FIONREAD ioctl: the queued byte count on success. -/
inductive IoctlResult where
  | ok (bytesAvailable : Nat)
  | err
deriving DecidableEq, Repr

/-- Outcome of one read syscall on the CAN socket. -/
inductive ReadResult where
  | frame (f : can_frame)
  | wouldBlock
  | otherError

/-- CanDriver::waitForMessages - rejects an invalid socket, waits via
select (whose result arrives as fdsAvailable), then queries FIONREAD:
on success the cached queue size becomes the byte count divided by the
frame-struct size (the std::ceil in the source is applied to an
already-truncated integer quotient, so the net effect is the floor);
on failure the cached size is zeroed and the driver permanently drops
to the unknown-queue-size mode.  Returns whether select reported
readiness. -/
def CanDriver.waitForMessages (st : CanDriver) (fdsAvailable : Int)
    (ioctl : IoctlResult) : Except CanError (CanDriver × Bool) :=
  if st.m_socketFd < 0 then Except.error CanError.invalidSocket
  else
    match ioctl with
    | IoctlResult.ok bytesAvailable =>
        Except.ok ({ st with m_queueSize := bytesAvailable / SIZEOF_CAN_FRAME },
          decide (0 < fdsAvailable))
    | IoctlResult.err =>
        Except.ok ({ st with m_queueSize := 0, m_canReadQueueSize := false },
          decide (0 < fdsAvailable))

/-- Specification-side frame count for claim C3: the queued byte count
divided by the frame-struct size, rounded up. -/
def specCeilFrames (bytes : Nat) : Nat :=
  (bytes + SIZEOF_CAN_FRAME - 1) / SIZEOF_CAN_FRAME

/-- CanDriver::readMessageLock - rejects an invalid socket, issues one
read syscall and fails with an I/O condition on any failed read
(would-block included); on success yields the frame and the rest of
the read trace.  Timestamp telemetry is not modelled. -/
def CanDriver.readMessageLock (st : CanDriver) (reads : List ReadResult) :
    Except CanError (can_frame × List ReadResult) :=
  if st.m_socketFd < 0 then Except.error CanError.invalidSocket
  else
    match reads with
    | ReadResult.frame f :: rest => Except.ok (f, rest)
    | ReadResult.wouldBlock :: _ => Except.error CanError.ioFailure
    | ReadResult.otherError :: _ => Except.error CanError.ioFailure
    | [] => Except.error CanError.ioFailure

/-- Branch A of CanDriver::readQueuedMessages - the counted loop that
calls readMessageLock once per cached queue slot. -/
def CanDriver.readExactly (st : CanDriver) :
    Nat → List ReadResult → Except CanError (List can_frame × List ReadResult)
  | 0, reads => Except.ok ([], reads)
  | n + 1, reads =>
    match st.readMessageLock reads with
    | Except.error e => Except.error e
    | Except.ok (f, rest) =>
      match CanDriver.readExactly st n rest with
      | Except.error e => Except.error e
      | Except.ok (fs, rest2) => Except.ok (f :: fs, rest2)

/-- Branch B of CanDriver::readQueuedMessages - reads frames until a
read fails with would-block, which ends the loop normally; any other
read failure raises an I/O condition.  An exhausted trace ends the
model loop. -/
def CanDriver.drainLoop :
    List ReadResult → Except CanError (List can_frame × List ReadResult)
  | [] => Except.ok ([], [])
  | ReadResult.frame f :: rest =>
    match CanDriver.drainLoop rest with
    | Except.ok (fs, r) => Except.ok (f :: fs, r)
    | Except.error e => Except.error e
  | ReadResult.wouldBlock :: rest => Except.ok ([], rest)
  | ReadResult.otherError :: _ => Except.error CanError.ioFailure

/-- CanDriver::readQueuedMessages - rejects an invalid socket, then
drains the queue: with a known queue size it reads exactly
m_queueSize frames (branch A), otherwise it loops until would-block
(branch B). -/
def CanDriver.readQueuedMessages (st : CanDriver) (reads : List ReadResult) :
    Except CanError (List can_frame × List ReadResult) :=
  if st.m_socketFd < 0 then Except.error CanError.invalidSocket
  else if st.m_canReadQueueSize then st.readExactly st.m_queueSize reads
  else CanDriver.drainLoop reads

/-- CanDriver::sendMessage - rejects an invalid socket, then a payload
longer than CAN_MAX_DATA_LENGTH, then builds the outgoing frame
(forcing the extended-frame flag when requested or when the
flag-stripped identifier exceeds the 11-bit mask), issues exactly one
write syscall and fails with an I/O condition on a negative write
result.  The returned triple carries the call result, the unchanged
driver state and the list of frames actually passed to write. -/
def CanDriver.sendMessage (st : CanDriver) (message : CanMessage)
    (forceExtended : Bool) (writeResult : Int) :
    Except CanError Int × CanDriver × List can_frame :=
  if st.m_socketFd < 0 then (Except.error CanError.invalidSocket, st, [])
  else if message.getFrameData.length > CAN_MAX_DATA_LENGTH then
    (Except.error CanError.payloadTooBig, st, [])
  else
    let canFrame := message.getRawFrame
    let outFrame :=
      if forceExtended || decide (CAN_SFF_MASK < message.getCanId.toCanid) then
        { canFrame with can_id := canFrame.can_id ||| CAN_EFF_FLAG }
      else canFrame
    if writeResult < 0 then (Except.error CanError.ioFailure, st, [outFrame])
    else (Except.ok writeResult, st, [outFrame])

/-- CanDriver::uninitialiseSocketCan - fails with a close condition
when the handle is not positive (never opened or already closed);
otherwise closes the socket, failing with a close condition when the
close syscall fails, in which case the exception propagates before the
handle is overwritten; only after a successful close is the handle set
to -1.  The returned pair carries the call result and the post state. -/
def CanDriver.uninitialiseSocketCan (st : CanDriver) (closeSucceeds : Bool) :
    Except CanError Unit × CanDriver :=
  if st.m_socketFd ≤ 0 then (Except.error CanError.closeFailure, st)
  else if closeSucceeds then (Except.ok (), { st with m_socketFd := -1 })
  else (Except.error CanError.closeFailure, st)

/-- C3 shows a code bug: after waitForMessages on a bound driver with
the byte-count query succeeding and reporting 17 bytes, the cached
frame count is the floor 17 / 16 = 1, while the specified ceiling
conversion gives 2 - the std::ceil in the source acts on an already
truncated integer quotient. -/
theorem waitForMessages_floor_not_ceiling :
    CanDriver.waitForMessages
        { m_canReadQueueSize := true, m_collectTelemetry := false,
          m_socketFd := 3, m_queueSize := 0 } 1 (IoctlResult.ok 17) =
      Except.ok
        ({ m_canReadQueueSize := true, m_collectTelemetry := false,
           m_socketFd := 3, m_queueSize := 1 }, true) ∧
    specCeilFrames 17 = 2 ∧ (1 : Nat) ≠ 2 :=
  ⟨rfl, rfl, by decide⟩

theorem readExactly_frames (st : CanDriver) (h : ¬ st.m_socketFd < 0) :
    ∀ (fs : List can_frame) (rest : List ReadResult),
      st.readExactly fs.length (fs.map ReadResult.frame ++ rest) =
        Except.ok (fs, rest) := by
  intro fs
  induction fs with
  | nil => intro rest; rfl
  | cons f fs ih =>
    intro rest
    simp only [List.length_cons, List.map_cons, List.cons_append,
      CanDriver.readExactly, CanDriver.readMessageLock, if_neg h, ih rest]

theorem drainLoop_until_wouldBlock (fs : List can_frame) (rest : List ReadResult) :
    CanDriver.drainLoop (fs.map ReadResult.frame ++ ReadResult.wouldBlock :: rest) =
      Except.ok (fs, rest) := by
  induction fs with
  | nil => rfl
  | cons f fs ih =>
    simp only [List.map_cons, List.cons_append, CanDriver.drainLoop,
      List.append_eq, ih]

theorem drainLoop_other_error (fs : List can_frame) (rest : List ReadResult) :
    CanDriver.drainLoop (fs.map ReadResult.frame ++ ReadResult.otherError :: rest) =
      Except.error CanError.ioFailure := by
  induction fs with
  | nil => rfl
  | cons f fs ih =>
    simp only [List.map_cons, List.cons_append, CanDriver.drainLoop,
      List.append_eq, ih]

/-- C4: readQueuedMessages on a bound driver; with the queue size known
(branch A) it reads exactly the cached number of frames off the trace
and stops; with the queue size unknown (branch B) it reads frames
until a would-block failure, which ends the drain successfully, while
any other read failure propagates as an I/O error. -/
theorem readQueuedMessages_branches (st : CanDriver) (fs : List can_frame)
    (rest : List ReadResult) (hfd : 0 ≤ st.m_socketFd) :
    (st.m_canReadQueueSize = true → fs.length = st.m_queueSize →
      st.readQueuedMessages (fs.map ReadResult.frame ++ rest) =
        Except.ok (fs, rest)) ∧
    (st.m_canReadQueueSize = false →
      st.readQueuedMessages
          (fs.map ReadResult.frame ++ ReadResult.wouldBlock :: rest) =
        Except.ok (fs, rest)) ∧
    (st.m_canReadQueueSize = false →
      st.readQueuedMessages
          (fs.map ReadResult.frame ++ ReadResult.otherError :: rest) =
        Except.error CanError.ioFailure) := by
  have hlt : ¬ st.m_socketFd < 0 := by omega
  refine ⟨?_, ?_, ?_⟩
  · intro hmode hlen
    rw [CanDriver.readQueuedMessages, if_neg hlt, if_pos hmode, ← hlen,
      readExactly_frames st hlt fs rest]
  · intro hmode
    rw [CanDriver.readQueuedMessages, if_neg hlt, hmode, if_neg (by simp),
      drainLoop_until_wouldBlock]
  · intro hmode
    rw [CanDriver.readQueuedMessages, if_neg hlt, hmode, if_neg (by simp),
      drainLoop_other_error]

/-- Witness for C4 on a concrete two-frame trace, exercising branch A
on a driver with a cached queue size of 2 and both branch B outcomes
on a driver in unknown-queue-size mode. -/
theorem readQueuedMessages_branches_witness :
    (CanDriver.readQueuedMessages
        { m_canReadQueueSize := true, m_collectTelemetry := false,
          m_socketFd := 3, m_queueSize := 2 }
        ([⟨1, 0, fun _ => 0⟩, ⟨2, 0, fun _ => 0⟩].map ReadResult.frame ++ []) =
      Except.ok ([⟨1, 0, fun _ => 0⟩, ⟨2, 0, fun _ => 0⟩], [])) ∧
    (CanDriver.readQueuedMessages
        { m_canReadQueueSize := false, m_collectTelemetry := false,
          m_socketFd := 3, m_queueSize := 0 }
        ([⟨1, 0, fun _ => 0⟩, ⟨2, 0, fun _ => 0⟩].map ReadResult.frame ++
          ReadResult.wouldBlock :: []) =
      Except.ok ([⟨1, 0, fun _ => 0⟩, ⟨2, 0, fun _ => 0⟩], [])) ∧
    (CanDriver.readQueuedMessages
        { m_canReadQueueSize := false, m_collectTelemetry := false,
          m_socketFd := 3, m_queueSize := 0 }
        ([⟨1, 0, fun _ => 0⟩, ⟨2, 0, fun _ => 0⟩].map ReadResult.frame ++
          ReadResult.otherError :: []) =
      Except.error CanError.ioFailure) :=
  ⟨(readQueuedMessages_branches
      { m_canReadQueueSize := true, m_collectTelemetry := false,
        m_socketFd := 3, m_queueSize := 2 }
      [⟨1, 0, fun _ => 0⟩, ⟨2, 0, fun _ => 0⟩] [] (by decide)).1 rfl rfl,
   (readQueuedMessages_branches
      { m_canReadQueueSize := false, m_collectTelemetry := false,
        m_socketFd := 3, m_queueSize := 0 }
      [⟨1, 0, fun _ => 0⟩, ⟨2, 0, fun _ => 0⟩] [] (by decide)).2.1 rfl,
   (readQueuedMessages_branches
      { m_canReadQueueSize := false, m_collectTelemetry := false,
        m_socketFd := 3, m_queueSize := 0 }
      [⟨1, 0, fun _ => 0⟩, ⟨2, 0, fun _ => 0⟩] [] (by decide)).2.2 rfl⟩

/-- C5: sendMessage on a bound driver with a payload longer than the
classic 8-byte maximum fails with the payload-too-large condition, no
frame is ever handed to the write syscall, and the driver state is
returned unchanged. -/
theorem sendMessage_payload_too_big (st : CanDriver) (msg : CanMessage)
    (forceExtended : Bool) (writeResult : Int)
    (hfd : 0 ≤ st.m_socketFd) (hlen : CAN_MAX_DATA_LENGTH < msg.getFrameData.length) :
    st.sendMessage msg forceExtended writeResult =
      (Except.error CanError.payloadTooBig, st, []) := by
  have hlt : ¬ st.m_socketFd < 0 := by omega
  rw [CanDriver.sendMessage, if_neg hlt, if_pos hlen]

/-- Witness for C5: a nine-byte message on a bound driver. -/
theorem sendMessage_payload_too_big_witness :
    CanDriver.sendMessage
        { m_canReadQueueSize := true, m_collectTelemetry := false,
          m_socketFd := 3, m_queueSize := 0 }
        (CanMessage.ofFrame ⟨0x123, 9, fun _ => 0⟩) false 1 =
      (Except.error CanError.payloadTooBig,
        { m_canReadQueueSize := true, m_collectTelemetry := false,
          m_socketFd := 3, m_queueSize := 0 }, []) :=
  sendMessage_payload_too_big
    { m_canReadQueueSize := true, m_collectTelemetry := false,
      m_socketFd := 3, m_queueSize := 0 }
    (CanMessage.ofFrame ⟨0x123, 9, fun _ => 0⟩) false 1 (by decide)
    (by simp [CanMessage.getFrameData, CanMessage.ofFrame, CAN_MAX_DATA_LENGTH])

/-- The claim C7 fails on the code: when close fails on a live handle,
the exception propagates before the handle is overwritten, so the
driver keeps the live descriptor 3 instead of transitioning to the
invalidated handle. -/
theorem uninitialise_failed_close_keeps_handle :
    (CanDriver.uninitialiseSocketCan
        { m_canReadQueueSize := true, m_collectTelemetry := false,
          m_socketFd := 3, m_queueSize := 0 } false).2.m_socketFd = 3 ∧
    (3 : Int) ≠ -1 :=
  ⟨rfl, by decide⟩

/-- C7 (amended): teardown fails with a close condition when the close
syscall fails or when the handle is not positive (never opened or
already closed); the transition to the closed state with the handle
invalidated happens only on a successful close - on a failed close the
state, handle included, is unchanged. -/
theorem uninitialise_behaviour (st : CanDriver) (closeSucceeds : Bool) :
    (0 < st.m_socketFd →
      (closeSucceeds = true →
        st.uninitialiseSocketCan closeSucceeds =
          (Except.ok (), { st with m_socketFd := -1 })) ∧
      (closeSucceeds = false →
        st.uninitialiseSocketCan closeSucceeds =
          (Except.error CanError.closeFailure, st))) ∧
    (st.m_socketFd ≤ 0 →
      st.uninitialiseSocketCan closeSucceeds =
        (Except.error CanError.closeFailure, st)) := by
  refine ⟨?_, ?_⟩
  · intro hpos
    have hle : ¬ st.m_socketFd ≤ 0 := by omega
    refine ⟨?_, ?_⟩ <;> intro hclose <;>
      rw [CanDriver.uninitialiseSocketCan, if_neg hle, hclose] <;> rfl
  · intro hle
    rw [CanDriver.uninitialiseSocketCan, if_pos hle]

/-- Witness for C7 (amended) on a driver holding descriptor 3 and on a
never-opened driver with the invalid descriptor -1. -/
theorem uninitialise_behaviour_witness :
    ((CanDriver.uninitialiseSocketCan
        { m_canReadQueueSize := true, m_collectTelemetry := false,
          m_socketFd := 3, m_queueSize := 0 } true) =
      (Except.ok (),
        { m_canReadQueueSize := true, m_collectTelemetry := false,
          m_socketFd := -1, m_queueSize := 0 })) ∧
    ((CanDriver.uninitialiseSocketCan
        { m_canReadQueueSize := true, m_collectTelemetry := false,
          m_socketFd := 3, m_queueSize := 0 } false) =
      (Except.error CanError.closeFailure,
        { m_canReadQueueSize := true, m_collectTelemetry := false,
          m_socketFd := 3, m_queueSize := 0 })) ∧
    ((CanDriver.uninitialiseSocketCan
        { m_canReadQueueSize := true, m_collectTelemetry := false,
          m_socketFd := -1, m_queueSize := 0 } true) =
      (Except.error CanError.closeFailure,
        { m_canReadQueueSize := true, m_collectTelemetry := false,
          m_socketFd := -1, m_queueSize := 0 })) :=
  ⟨((uninitialise_behaviour
      { m_canReadQueueSize := true, m_collectTelemetry := false,
        m_socketFd := 3, m_queueSize := 0 } true).1 (by decide)).1 rfl,
   ((uninitialise_behaviour
      { m_canReadQueueSize := true, m_collectTelemetry := false,
        m_socketFd := 3, m_queueSize := 0 } false).1 (by decide)).2 rfl,
   (uninitialise_behaviour
      { m_canReadQueueSize := true, m_collectTelemetry := false,
        m_socketFd := -1, m_queueSize := 0 } true).2 (by decide)⟩

/-! Arithmetic lemmas for the conversion operators. -/

theorem and_err_mask (y : Nat) : y &&& CAN_ERR_MASK = y % 536870912 := by
  have h := Nat.and_pow_two_sub_one_eq_mod y 29
  norm_num at h
  simpa [CAN_ERR_MASK] using h

theorem mod29_mod16 (y : Nat) : y % 536870912 % 65536 = y % 65536 :=
  Nat.mod_mod_of_dvd y (by norm_num)

theorem toSigned16_mod32_mod16 (x : Nat) (hx : x < 65536) :
    (toSigned16 x % (4294967296 : Int)).toNat % 65536 = x := by
  unfold toSigned16
  split <;> omega

/-- C10: on a CanId holding a 32-bit value, the conversion operators to
int16_t, uint16_t, int32_t and canid_t all return the value with the
three flag bits stripped (AND with CAN_ERR_MASK) truncated to the
target width, the dereference operator returns the raw value
unchanged, and the frame sendMessage hands to the write syscall gets
the extended-frame flag exactly when forced or when the flag-stripped
identifier exceeds the 11-bit mask. -/
theorem canId_conversion_operators (v : Nat) (hv : v < 4294967296) :
    CanId.toInt16 ⟨v⟩ = toSigned16 ((v &&& CAN_ERR_MASK) % 65536) ∧
    CanId.toUInt16 ⟨v⟩ = (v &&& CAN_ERR_MASK) % 65536 ∧
    CanId.toInt32 ⟨v⟩ = ((v &&& CAN_ERR_MASK : Nat) : Int) ∧
    CanId.toCanid ⟨v⟩ = v &&& CAN_ERR_MASK ∧
    CanId.deref ⟨v⟩ = v ∧
    (∀ (st : CanDriver) (msg : CanMessage) (fe : Bool) (wr : Int),
      ¬ st.m_socketFd < 0 →
      ¬ CAN_MAX_DATA_LENGTH < msg.getFrameData.length →
      (st.sendMessage msg fe wr).2.2 =
        [if fe || decide (CAN_SFF_MASK < msg.getCanId.deref &&& CAN_ERR_MASK)
         then { msg.getRawFrame with can_id := msg.getRawFrame.can_id ||| CAN_EFF_FLAG }
         else msg.getRawFrame]) := by
  refine ⟨?_, ?_, rfl, rfl, rfl, ?_⟩
  · have lhs : CanId.toInt16 ⟨v⟩ =
        toSigned16 (((toSigned16 (v % 65536) % (4294967296 : Int)).toNat &&&
          CAN_ERR_MASK) % 65536) := rfl
    rw [lhs, and_err_mask, mod29_mod16,
      toSigned16_mod32_mod16 (v % 65536) (Nat.mod_lt v (by norm_num)),
      and_err_mask, mod29_mod16]
  · have lhs : CanId.toUInt16 ⟨v⟩ = ((v % 65536) &&& CAN_ERR_MASK) % 65536 := rfl
    rw [lhs, and_err_mask, mod29_mod16, and_err_mask, mod29_mod16]
    omega
  · intro st msg fe wr h1 h2
    by_cases h3 : wr < 0 <;>
      simp [CanDriver.sendMessage, h1, h2, h3, CanId.toCanid, CanId.deref]

/-- Witness for C10 at the value 0xE0000155 (all three flag bits set)
and a concrete two-byte message sent on a bound driver. -/
theorem canId_conversion_operators_witness :
    (CanId.toInt16 ⟨0xE0000155⟩ =
      toSigned16 ((0xE0000155 &&& CAN_ERR_MASK) % 65536) ∧
     CanId.toUInt16 ⟨0xE0000155⟩ = (0xE0000155 &&& CAN_ERR_MASK) % 65536 ∧
     CanId.toInt32 ⟨0xE0000155⟩ = ((0xE0000155 &&& CAN_ERR_MASK : Nat) : Int) ∧
     CanId.toCanid ⟨0xE0000155⟩ = 0xE0000155 &&& CAN_ERR_MASK ∧
     CanId.deref ⟨0xE0000155⟩ = 0xE0000155) ∧
    (CanDriver.sendMessage
        { m_canReadQueueSize := true, m_collectTelemetry := false,
          m_socketFd := 3, m_queueSize := 0 }
        (CanMessage.ofFrame ⟨0x123, 2, fun _ => 0⟩) false 1).2.2 =
      [if false ||
          decide (CAN_SFF_MASK <
            (CanMessage.ofFrame ⟨0x123, 2, fun _ => 0⟩).getCanId.deref &&&
              CAN_ERR_MASK)
       then { (CanMessage.ofFrame ⟨0x123, 2, fun _ => 0⟩).getRawFrame with
               can_id := (CanMessage.ofFrame
                 ⟨0x123, 2, fun _ => 0⟩).getRawFrame.can_id ||| CAN_EFF_FLAG }
       else (CanMessage.ofFrame ⟨0x123, 2, fun _ => 0⟩).getRawFrame] :=
  ⟨⟨(canId_conversion_operators 0xE0000155 (by norm_num)).1,
    (canId_conversion_operators 0xE0000155 (by norm_num)).2.1,
    (canId_conversion_operators 0xE0000155 (by norm_num)).2.2.1,
    (canId_conversion_operators 0xE0000155 (by norm_num)).2.2.2.1,
    (canId_conversion_operators 0xE0000155 (by norm_num)).2.2.2.2.1⟩,
   (canId_conversion_operators 0xE0000155 (by norm_num)).2.2.2.2.2
     { m_canReadQueueSize := true, m_collectTelemetry := false,
       m_socketFd := 3, m_queueSize := 0 }
     (CanMessage.ofFrame ⟨0x123, 2, fun _ => 0⟩) false 1 (by decide)
     (by decide)⟩
